import Mathlib

/-!
Verification of the LGE SmartThinQ climate adapter
(`custom_components/smartthinq_sensors/climate.py`).

The adapter translates the host framework's HVAC mode vocabulary into
vendor operation modes and forwards reads/writes to an external device
client.  We embed the mode translation tables, the `hvac_mode` getter,
`set_hvac_mode` (as a trace of protocol-device calls plus an optional
raised error), `hvac_modes`, `supported_features`, and the
`min_temp` / `max_temp` accessors.
-/

namespace SmartThinQClimate

/-- Host framework constant `HVAC_MODE_OFF`. -/
def HVAC_MODE_OFF : String := "off"

/-- Host framework constant `HVAC_MODE_AUTO`. -/
def HVAC_MODE_AUTO : String := "auto"

/-- Host framework constant `HVAC_MODE_HEAT`. -/
def HVAC_MODE_HEAT : String := "heat"

/-- Host framework constant `HVAC_MODE_DRY`. -/
def HVAC_MODE_DRY : String := "dry"

/-- Host framework constant `HVAC_MODE_COOL`. -/
def HVAC_MODE_COOL : String := "cool"

/-- Host framework constant `HVAC_MODE_FAN_ONLY`. -/
def HVAC_MODE_FAN_ONLY : String := "fan_only"

/-- Host framework constant `HVAC_MODE_HEAT_COOL`. -/
def HVAC_MODE_HEAT_COOL : String := "heat_cool"

/-- Host framework default minimum target temperature (`DEFAULT_MIN_TEMP`). -/
def DEFAULT_MIN_TEMP : ℚ := 7

/-- Host framework default maximum target temperature (`DEFAULT_MAX_TEMP`). -/
def DEFAULT_MAX_TEMP : ℚ := 35

/-- Host framework climate feature flag `SUPPORT_TARGET_TEMPERATURE`. -/
def SUPPORT_TARGET_TEMPERATURE : Nat := 1

/-- Host framework climate feature flag `SUPPORT_FAN_MODE`. -/
def SUPPORT_FAN_MODE : Nat := 8

/-- Host framework climate feature flag `SUPPORT_SWING_MODE`. -/
def SUPPORT_SWING_MODE : Nat := 32

/-- Forward translation table `HVAC_MODE_LOOKUP`: vendor `ACMode` member
names to host HVAC modes, exactly as written in `climate.py`.  A Python
dict with string keys is modelled as an association list looked up with
`List.lookup` (first match; the keys are distinct). -/
def HVAC_MODE_LOOKUP : List (String × String) :=
  [ ("AI",   HVAC_MODE_AUTO),
    ("HEAT", HVAC_MODE_HEAT),
    ("DRY",  HVAC_MODE_DRY),
    ("COOL", HVAC_MODE_COOL),
    ("FAN",  HVAC_MODE_FAN_ONLY),
    ("ACO",  HVAC_MODE_HEAT_COOL) ]

/-- Reverse translation table, built from the forward one exactly as the
Python comprehension does: swap every key/value pair. -/
def HVAC_MODE_REVERSE_LOOKUP : List (String × String) :=
  HVAC_MODE_LOOKUP.map (fun p => (p.2, p.1))

/-- Cached device state (`self._api.state`): power flag and the raw
vendor operation mode, which may be unset. -/
structure ACState where
  is_on : Bool
  operation_mode : Option String
  deriving DecidableEq

/-- The protocol device's static capabilities used by the adapter
(`self._device`).  Temperatures are modelled as rationals; the unit
conversion helper `conv_temp_unit` is an opaque function field. -/
structure ACDevice where
  op_modes : List String
  vert_swing_modes : List String
  target_temperature_min : Option ℚ
  target_temperature_max : Option ℚ
  conv_temp_unit : ℚ → ℚ

/-- A mutation call issued to the protocol device. -/
inductive ACCall where
  | power (turn_on : Bool)
  | set_op_mode (mode : String)
  deriving DecidableEq

/-- The `hvac_mode` property getter: `HVAC_MODE_OFF` when the device is
not on or its operation mode is unset, otherwise the forward table
lookup (Python `dict.get`, hence `Option`). -/
def hvac_mode_get (st : ACState) : Option String :=
  if !st.is_on || st.operation_mode.isNone then
    some HVAC_MODE_OFF
  else
    st.operation_mode.bind (fun mode => HVAC_MODE_LOOKUP.lookup mode)

/-- `set_hvac_mode`, embedded as the list of protocol-device calls it
issues, in order, together with the message of the `ValueError` it
raises (if any).  The Python raises before issuing any call. -/
def set_hvac_mode (st : ACState) (hvac_mode : String) :
    List ACCall × Option String :=
  if hvac_mode == HVAC_MODE_OFF then
    ([ACCall.power false], none)
  else
    match HVAC_MODE_REVERSE_LOOKUP.lookup hvac_mode with
    | none => ([], some ("Invalid hvac_mode [" ++ hvac_mode ++ "]"))
    | some operation_mode =>
      if hvac_mode_get st == some HVAC_MODE_OFF then
        ([ACCall.power true, ACCall.set_op_mode operation_mode], none)
      else
        ([ACCall.set_op_mode operation_mode], none)

/-- The `hvac_modes` property: `HVAC_MODE_OFF` first, then the forward
translation of every device-reported operation mode that is a key of
the forward table.  Elements are `Option String` because the Python
list comprehension uses `dict.get`. -/
def hvac_modes (d : ACDevice) : List (Option String) :=
  some HVAC_MODE_OFF ::
    (d.op_modes.filter
        (fun mode => (HVAC_MODE_LOOKUP.lookup mode).isSome)).map
      (fun mode => HVAC_MODE_LOOKUP.lookup mode)

/-- The `supported_features` property: fan mode and target temperature
always, swing mode when more than one vertical swing mode is reported. -/
def supported_features (d : ACDevice) : Nat :=
  let features := SUPPORT_FAN_MODE ||| SUPPORT_TARGET_TEMPERATURE
  if d.vert_swing_modes.length > 1 then
    features ||| SUPPORT_SWING_MODE
  else
    features

/-- The `min_temp` property: the device-reported minimum when present,
otherwise the unit-converted framework default. -/
def min_temp (d : ACDevice) : ℚ :=
  match d.target_temperature_min with
  | some min_value => min_value
  | none => d.conv_temp_unit DEFAULT_MIN_TEMP

/-- The `max_temp` property: the device-reported maximum when present,
otherwise the unit-converted framework default. -/
def max_temp (d : ACDevice) : ℚ :=
  match d.target_temperature_max with
  | some max_value => max_value
  | none => d.conv_temp_unit DEFAULT_MAX_TEMP

end SmartThinQClimate

namespace SmartThinQClimate

/-- C1: for every input string `hvac_mode` that is not the off mode and
has no entry in the reverse translation table, `set_hvac_mode` raises a
`ValueError` whose message names the invalid input. -/
theorem set_hvac_mode_invalid_raises (st : ACState) (hvac_mode : String)
    (hne : hvac_mode ≠ HVAC_MODE_OFF)
    (hmiss : HVAC_MODE_REVERSE_LOOKUP.lookup hvac_mode = none) :
    (set_hvac_mode st hvac_mode).2 =
      some ("Invalid hvac_mode [" ++ hvac_mode ++ "]") := by
  simp [set_hvac_mode, hne, hmiss]

/-- Witness for C1 at the concrete input "wind". -/
theorem set_hvac_mode_invalid_raises_witness :
    ("wind" ≠ HVAC_MODE_OFF) ∧
    (set_hvac_mode ⟨true, none⟩ "wind").2 =
      some ("Invalid hvac_mode [" ++ "wind" ++ "]") :=
  ⟨by decide,
   set_hvac_mode_invalid_raises ⟨true, none⟩ "wind" (by decide) (by decide)⟩

/-- C2: calling `set_hvac_mode` with the off mode issues exactly one
power-off call and never a set-op-mode call, whatever the device state. -/
theorem set_hvac_mode_off_powers_off (st : ACState) :
    set_hvac_mode st HVAC_MODE_OFF = ([ACCall.power false], none) := rfl

/-- C3: for a recognized non-off mode, when the entity's current
hvac mode reads off, `set_hvac_mode` issues power-on strictly before
set-op-mode: the trace is exactly power-on followed by set-op-mode. -/
theorem set_hvac_mode_from_off_powers_on_first (st : ACState)
    (hvac_mode operation_mode : String)
    (hne : hvac_mode ≠ HVAC_MODE_OFF)
    (hfound : HVAC_MODE_REVERSE_LOOKUP.lookup hvac_mode = some operation_mode)
    (hoff : hvac_mode_get st = some HVAC_MODE_OFF) :
    set_hvac_mode st hvac_mode =
      ([ACCall.power true, ACCall.set_op_mode operation_mode], none) := by
  simp [set_hvac_mode, hne, hfound, hoff]

/-- Witness for C3: setting "cool" from a powered-off state. -/
theorem set_hvac_mode_from_off_powers_on_first_witness :
    ("cool" ≠ HVAC_MODE_OFF) ∧
    HVAC_MODE_REVERSE_LOOKUP.lookup "cool" = some "COOL" ∧
    hvac_mode_get ⟨false, none⟩ = some HVAC_MODE_OFF ∧
    set_hvac_mode ⟨false, none⟩ "cool" =
      ([ACCall.power true, ACCall.set_op_mode "COOL"], none) :=
  ⟨by decide, by decide, by decide,
   set_hvac_mode_from_off_powers_on_first ⟨false, none⟩ "cool" "COOL"
     (by decide) (by decide) (by decide)⟩

/-- C4: the forward and reverse translation tables are mutual inverses:
every forward entry round-trips through the reverse table and every
reverse entry round-trips through the forward table. -/
theorem lookup_tables_mutual_inverses :
    (∀ p ∈ HVAC_MODE_LOOKUP,
        HVAC_MODE_REVERSE_LOOKUP.lookup p.2 = some p.1) ∧
    (∀ p ∈ HVAC_MODE_REVERSE_LOOKUP,
        HVAC_MODE_LOOKUP.lookup p.2 = some p.1) := by decide

/-- Witness for C4 at the concrete forward entry ("AI", auto). -/
theorem lookup_tables_mutual_inverses_witness :
    ("AI", HVAC_MODE_AUTO) ∈ HVAC_MODE_LOOKUP ∧
    HVAC_MODE_REVERSE_LOOKUP.lookup HVAC_MODE_AUTO = some "AI" :=
  ⟨by decide,
   lookup_tables_mutual_inverses.1 ("AI", HVAC_MODE_AUTO) (by decide)⟩

end SmartThinQClimate

namespace SmartThinQClimate

/-- A concrete protocol device used to instantiate theorems: two
reported operation modes (one untranslatable), two swing modes, a
device-reported minimum but no maximum, identity unit conversion. -/
def devEx : ACDevice :=
  ⟨["COOL", "WIND"], ["s1", "s2"], some 16, none, fun t => t⟩

/-- C5: `min_temp` returns the device-reported minimum whenever present
and the unit-converted framework default only when absent; `max_temp`
behaves symmetrically. -/
theorem min_max_temp_fallback (d : ACDevice) :
    (∀ v, d.target_temperature_min = some v → min_temp d = v) ∧
    (d.target_temperature_min = none →
      min_temp d = d.conv_temp_unit DEFAULT_MIN_TEMP) ∧
    (∀ v, d.target_temperature_max = some v → max_temp d = v) ∧
    (d.target_temperature_max = none →
      max_temp d = d.conv_temp_unit DEFAULT_MAX_TEMP) := by
  refine ⟨fun v hv => ?_, fun h => ?_, fun v hv => ?_, fun h => ?_⟩
  · simp [min_temp, hv]
  · simp [min_temp, h]
  · simp [max_temp, hv]
  · simp [max_temp, h]

/-- Witness for C5 on the concrete device `devEx`. -/
theorem min_max_temp_fallback_witness :
    devEx.target_temperature_min = some 16 ∧ min_temp devEx = 16 ∧
    devEx.target_temperature_max = none ∧
    max_temp devEx = devEx.conv_temp_unit DEFAULT_MAX_TEMP :=
  ⟨rfl, (min_max_temp_fallback devEx).1 16 rfl, rfl,
   (min_max_temp_fallback devEx).2.2.2 rfl⟩

/-- C6: `supported_features` always includes the fan-mode and
target-temperature flags, and includes the swing-mode flag exactly when
the device reports more than one vertical swing mode. -/
theorem supported_features_flags (d : ACDevice) :
    Nat.land (supported_features d) SUPPORT_FAN_MODE = SUPPORT_FAN_MODE ∧
    Nat.land (supported_features d) SUPPORT_TARGET_TEMPERATURE =
      SUPPORT_TARGET_TEMPERATURE ∧
    (Nat.land (supported_features d) SUPPORT_SWING_MODE =
        SUPPORT_SWING_MODE ↔ 1 < d.vert_swing_modes.length) := by
  by_cases h : 1 < d.vert_swing_modes.length <;>
    simp [supported_features, h, SUPPORT_FAN_MODE,
      SUPPORT_TARGET_TEMPERATURE, SUPPORT_SWING_MODE] <;> decide

/-- C7 counterexample: the host off mode has no entry in the reverse
translation table, so the seven-mode coverage claim fails at "off". -/
theorem reverse_lookup_misses_off :
    HVAC_MODE_REVERSE_LOOKUP.lookup HVAC_MODE_OFF = none := by decide

/-- C7 (amended): the translation table bidirectionally covers the six
non-off host modes auto/heat/cool/dry/fan-only/heat-cool: each has a
vendor counterpart under reverse lookup, and translating that
counterpart forward returns the same host mode. -/
theorem six_host_modes_roundtrip :
    ((HVAC_MODE_REVERSE_LOOKUP.lookup HVAC_MODE_AUTO).bind
        (fun k => HVAC_MODE_LOOKUP.lookup k) = some HVAC_MODE_AUTO) ∧
    ((HVAC_MODE_REVERSE_LOOKUP.lookup HVAC_MODE_HEAT).bind
        (fun k => HVAC_MODE_LOOKUP.lookup k) = some HVAC_MODE_HEAT) ∧
    ((HVAC_MODE_REVERSE_LOOKUP.lookup HVAC_MODE_COOL).bind
        (fun k => HVAC_MODE_LOOKUP.lookup k) = some HVAC_MODE_COOL) ∧
    ((HVAC_MODE_REVERSE_LOOKUP.lookup HVAC_MODE_DRY).bind
        (fun k => HVAC_MODE_LOOKUP.lookup k) = some HVAC_MODE_DRY) ∧
    ((HVAC_MODE_REVERSE_LOOKUP.lookup HVAC_MODE_FAN_ONLY).bind
        (fun k => HVAC_MODE_LOOKUP.lookup k) = some HVAC_MODE_FAN_ONLY) ∧
    ((HVAC_MODE_REVERSE_LOOKUP.lookup HVAC_MODE_HEAT_COOL).bind
        (fun k => HVAC_MODE_LOOKUP.lookup k) = some HVAC_MODE_HEAT_COOL) := by
  decide

/-- C8: when `set_hvac_mode` raises for an unrecognized non-off mode,
no protocol-device call has been issued. -/
theorem set_hvac_mode_invalid_no_calls (st : ACState) (hvac_mode : String)
    (hne : hvac_mode ≠ HVAC_MODE_OFF)
    (hmiss : HVAC_MODE_REVERSE_LOOKUP.lookup hvac_mode = none) :
    (set_hvac_mode st hvac_mode).1 = [] ∧
    (set_hvac_mode st hvac_mode).2.isSome = true := by
  simp [set_hvac_mode, hne, hmiss]

/-- Witness for C8 at the concrete input "smart". -/
theorem set_hvac_mode_invalid_no_calls_witness :
    ("smart" ≠ HVAC_MODE_OFF) ∧
    ((set_hvac_mode ⟨true, some "COOL"⟩ "smart").1 = [] ∧
     (set_hvac_mode ⟨true, some "COOL"⟩ "smart").2.isSome = true) :=
  ⟨by decide,
   set_hvac_mode_invalid_no_calls ⟨true, some "COOL"⟩ "smart"
     (by decide) (by decide)⟩

/-- C9: the `hvac_mode` getter is total: it returns the off mode when
the device is not on or the operation mode is unset, and returns `none`
(rather than raising) when the device is on with an untranslatable
operation mode. -/
theorem hvac_mode_get_total (st : ACState) :
    (st.is_on = false ∨ st.operation_mode = none →
      hvac_mode_get st = some HVAC_MODE_OFF) ∧
    (∀ m, st.is_on = true → st.operation_mode = some m →
      HVAC_MODE_LOOKUP.lookup m = none → hvac_mode_get st = none) := by
  constructor
  · intro h
    rcases h with h | h <;> simp [hvac_mode_get, h]
  · intro m hon hm hnone
    simp [hvac_mode_get, hon, hm, hnone]

/-- Witness for C9: a powered-off state reads off; a powered-on state
with the untranslatable mode "WIND" reads `none`. -/
theorem hvac_mode_get_total_witness :
    hvac_mode_get ⟨false, some "COOL"⟩ = some HVAC_MODE_OFF ∧
    hvac_mode_get ⟨true, some "WIND"⟩ = none :=
  ⟨(hvac_mode_get_total ⟨false, some "COOL"⟩).1 (Or.inl rfl),
   (hvac_mode_get_total ⟨true, some "WIND"⟩).2 "WIND" rfl rfl (by decide)⟩

/-- C10: for every device, the `hvac_modes` list starts with the off
mode, and every other element is the forward translation of some
device-reported operation mode with a table entry (hence never
`none`). -/
theorem hvac_modes_structure (d : ACDevice) :
    (hvac_modes d).head? = some (some HVAC_MODE_OFF) ∧
    ∀ x ∈ (hvac_modes d).tail,
      ∃ m, m ∈ d.op_modes ∧ x = HVAC_MODE_LOOKUP.lookup m ∧
        x.isSome = true := by
  refine ⟨rfl, ?_⟩
  intro x hx
  simp only [hvac_modes, List.tail_cons, List.mem_map, List.mem_filter] at hx
  obtain ⟨m, ⟨hm, hsome⟩, hmx⟩ := hx
  exact ⟨m, hm, hmx.symm, hmx ▸ hsome⟩

/-- Witness for C10 on the concrete device `devEx`, whose reported
"WIND" mode is filtered out and whose "COOL" mode appears translated. -/
theorem hvac_modes_structure_witness :
    (hvac_modes devEx).head? = some (some HVAC_MODE_OFF) ∧
    ∃ m, m ∈ devEx.op_modes ∧
      (some HVAC_MODE_COOL : Option String) = HVAC_MODE_LOOKUP.lookup m ∧
      (some HVAC_MODE_COOL : Option String).isSome = true :=
  ⟨(hvac_modes_structure devEx).1,
   (hvac_modes_structure devEx).2 (some HVAC_MODE_COOL) (by decide)⟩

end SmartThinQClimate
